import Mathlib

/-!
Verification development for the TripPy `Scenario`/`DRTScenario` KPI layer.

The definitions below are a shallow embedding of `src/trippy/scenario.py`,
`src/trippy/drtscenario.py` and `src/trippy/comparison.py`:

* pandas `DataFrame`s become Lean lists of row structures; the dynamic
  presence or absence of an optional column (`contains_drt`, `all_modes`)
  becomes a boolean flag on the table value;
* float columns become exact rationals (`ℚ`); integer/second columns become
  `Int`, with Python floor division `//` translated as `Int.fdiv`;
* Python exceptions become `Except`/sum types; an uncaught `KeyError` versus
  a caught-and-rewrapped error is modelled explicitly where it matters;
* `Series.replace(dict)` becomes exact-match association-list replacement,
  `groupby(...).agg`/`size` becomes first-occurrence key deduplication plus
  per-key aggregation (pandas sorts group keys; every statement proved here
  is insensitive to row order of the grouped result);
* `Series.str.contains` (used with the plain, metacharacter-free mode labels
  of this code base) is translated as substring containment.
-/

/-- Per-scenario settings dictionary, `scenario.py` lines 43-110.  Only the
keys touched by the KPI methods under verification are modelled; `crs`,
`pt_modes` and `person_id_filter` are not read by any of those methods. -/
structure Settings where
  default_time_agg_interval : Nat
  drt_mode : String
  walk_mode : String
  mode_aggregation_rulesets : List (String × List (String × String))
deriving DecidableEq, Repr

/-- Default settings values from `Scenario.__init__` (`scenario.py` 43-110);
the two built-in rulesets are kept with a representative set of entries. -/
def defaultSettings : Settings where
  default_time_agg_interval := 60
  drt_mode := "drt"
  walk_mode := "walk"
  mode_aggregation_rulesets :=
    [("all_pt",
       [("100", "ÖV"), ("300", "ÖV"), ("400", "ÖV"), ("500", "ÖV"),
        ("600", "ÖV"), ("700", "ÖV"), ("800", "ÖV"), ("BVB10", "ÖV"),
        ("BVB10M", "ÖV"), ("BVT30", "ÖV"), ("BVT30M", "ÖV"), ("BVB10X", "ÖV"),
        ("BVU20", "ÖV"), ("BVF100", "ÖV"), ("bike", "Fahrrad"), ("car", "MIV"),
        ("ride", "Mitfahren"), ("walk", "Laufen"), ("drt", "DRT")]),
     ("vsys",
       [("100", "Bus"), ("300", "Tram"), ("400", "Fähre"), ("500", "S-Bahn"),
        ("600", "RV"), ("700", "FV"), ("800", "FV"), ("BVB10", "Bus"),
        ("BVB10M", "Bus"), ("BVT30", "Tram"), ("BVT30M", "Tram"),
        ("BVB10X", "Bus"), ("BVU20", "U-Bahn"), ("BVF100", "Fähre"),
        ("bike", "Fahrrad"), ("car", "MIV"), ("ride", "Mitfahren"),
        ("walk", "Laufen"), ("drt", "DRT")])]

/-- Exact-match value replacement, the semantics of
`Series.replace(mapping)` for a mode-label mapping. -/
def replaceVal (rules : List (String × String)) (v : String) : String :=
  match rules.lookup v with
  | some w => w
  | none => v

/-- Look up a named mode-aggregation ruleset, the semantics of
`self._settings["mode_aggregation_rulesets"][name]` for a configured name. -/
def rulesetFor (s : Settings) (name : String) : List (String × String) :=
  (s.mode_aggregation_rulesets.lookup name).getD []

/-- One row of the trips table (columns used by the claims). -/
structure TripRow where
  trip_id : String
  person_id : String
  main_mode : String
  contains_drt : Bool
  all_modes : String
  start_time : Int
deriving DecidableEq, Repr

/-- The trips table: its rows plus the dynamic presence of the two optional
columns that `get_n_drt_rides` / `get_drt_intermodal_analysis` probe for. -/
structure TripsTable where
  rows : List TripRow
  hasContainsDrt : Bool
  hasAllModes : Bool
deriving DecidableEq, Repr

/-- One row of the legs table (columns used by the claims). `line_id` is
`Option` because it is missing (NaN) for non-scheduled legs. -/
structure LegRow where
  leg_id : String
  trip_id : String
  mode : String
  line_id : Option String
  routed_distance : ℚ
  start_time : Int
deriving DecidableEq, Repr

/-- One row of the links table (columns used by the claims). -/
structure LinkRow where
  link_id : String
  vehicle_id : String
  person_id : String
  mode : String
  link_enter_time : Int
  distance_travelled : ℚ
deriving DecidableEq, Repr

/-- A `Scenario`/`DRTScenario` instance restricted to the state the verified
methods read: the settings dictionary and the three data tables. -/
structure Scenario where
  settings : Settings
  trips : TripsTable
  legs : List LegRow
  links : List LinkRow
deriving DecidableEq, Repr

/-- First-occurrence-keeping deduplication, the semantics of pandas
`drop_duplicates()` / `Series.unique()`. -/
def dropDupAux [DecidableEq α] (seen : List α) : List α → List α
  | [] => []
  | x :: xs => if x ∈ seen then dropDupAux seen xs else x :: dropDupAux (x :: seen) xs

/-- Deduplicate a list keeping the first occurrence of each element. -/
def dropDuplicates [DecidableEq α] (l : List α) : List α :=
  dropDupAux [] l

/-- First-occurrence-keeping deduplication of rows by a key function, the
semantics of `drop_duplicates(subset=...)`. -/
def dropDupByAux [DecidableEq β] (key : α → β) (seen : List β) : List α → List α
  | [] => []
  | x :: xs =>
    if key x ∈ seen then dropDupByAux key seen xs
    else x :: dropDupByAux key (key x :: seen) xs

/-- Deduplicate rows by a key, keeping the first row of each key. -/
def dropDuplicatesBy [DecidableEq β] (key : α → β) (l : List α) : List α :=
  dropDupByAux key [] l

namespace Scenario

/-- Embedding of `Scenario.get_person_km` (`scenario.py` 291-326): drop legs
whose mode is excluded, optionally remap modes through the named ruleset,
then per mode sum `routed_distance` and convert metres to kilometres. -/
def get_person_km (sc : Scenario) (exclude_modes : List String)
    (agg_modes_ruleset : Option String) : List (String × ℚ) :=
  let df := sc.legs.filter (fun l => decide (l.mode ∉ exclude_modes))
  let remapped : List LegRow :=
    match agg_modes_ruleset with
    | none => df
    | some name =>
      df.map (fun l => { l with mode := replaceVal (rulesetFor sc.settings name) l.mode })
  (dropDuplicates (remapped.map (fun l => l.mode))).map
    (fun m =>
      (m, ((remapped.filter (fun l => decide (l.mode = m))).map
            (fun l => l.routed_distance)).sum / 1000))

/-- Attach the `share` column: `share = n / sum(n)` over the result rows,
the semantics of `.assign(share=lambda x: x["n"] / x["n"].sum())`. -/
def addShare (rows : List (String × ℚ)) : List (String × ℚ × ℚ) :=
  let total := (rows.map (fun r => r.2)).sum
  rows.map (fun r => (r.1, r.2, r.2 / total))

/-- Embedding of `Scenario.get_modal_split` (`scenario.py` 353-423).
Result rows are `(mode, n, share)`; an unrecognized `split_type` raises
(`ValueError`, modelled as `Except.error`). -/
def get_modal_split (sc : Scenario) (split_type : String)
    (exclude_modes : List String) (agg_modes_ruleset : Option String) :
    Except String (List (String × ℚ × ℚ)) :=
  if split_type = "volume" then
    let df_filtered := sc.trips.rows.filter (fun t => decide (t.main_mode ∉ exclude_modes))
    let remapped : List TripRow :=
      match agg_modes_ruleset with
      | none => df_filtered
      | some name =>
        df_filtered.map
          (fun t => { t with main_mode := replaceVal (rulesetFor sc.settings name) t.main_mode })
    .ok (addShare ((dropDuplicates (remapped.map (fun t => t.main_mode))).map
      (fun m => (m, ((remapped.filter (fun t => decide (t.main_mode = m))).length : ℚ)))))
  else if split_type = "performance" then
    .ok (addShare (get_person_km sc exclude_modes agg_modes_ruleset))
  else
    .error "Argument `split_type` has to be either `volume` or `performance`"

/-- Embedding of `Scenario.get_vehicle_km` (`scenario.py` 481-519): drop links
with excluded modes, optionally remap modes, de-duplicate rows by
`(vehicle_id, link_id, link_enter_time)` keeping the first, then per mode sum
`distance_travelled` and convert metres to kilometres. -/
def get_vehicle_km (sc : Scenario) (exclude_modes : List String)
    (agg_modes_ruleset : Option String) : List (String × ℚ) :=
  let df := sc.links.filter (fun l => decide (l.mode ∉ exclude_modes))
  let remapped : List LinkRow :=
    match agg_modes_ruleset with
    | none => df
    | some name =>
      df.map (fun l => { l with mode := replaceVal (rulesetFor sc.settings name) l.mode })
  let deduped := dropDuplicatesBy (fun l => (l.vehicle_id, l.link_id, l.link_enter_time)) remapped
  (dropDuplicates (deduped.map (fun l => l.mode))).map
    (fun m =>
      (m, ((deduped.filter (fun l => decide (l.mode = m))).map
            (fun l => l.distance_travelled)).sum / 1000))

/-- Specification-level schema of a table handed to `add_data`: its column
names and row count.  `size` is `DataFrame.size`, i.e. rows times columns. -/
structure RawTable where
  cols : List String
  nrows : Nat
deriving DecidableEq, Repr

/-- Number of cells of the table (`DataFrame.size`). -/
def RawTable.size (t : RawTable) : Nat := t.nrows * t.cols.length

/-- Columns of the table specification found in the table
(`cols_existing` in `_check_specification_compliance`). -/
def recognizedCols (spec : List String) (t : RawTable) : List String :=
  spec.filter (fun c => decide (c ∈ t.cols))

/-- Columns of the table not in the table specification
(`cols_not_used` in `_check_specification_compliance`). -/
def unrecognizedCols (spec : List String) (t : RawTable) : List String :=
  t.cols.filter (fun c => decide (c ∉ spec))

/-- Embedding of `Scenario._check_specification_compliance`
(`scenario.py` 1119-1152): raise (`ValueError`, the SchemaError of the spec)
when no recognized column exists or the table has no entries; otherwise
return whether the non-fatal unrecognized-columns warning was printed. -/
def check_specification_compliance (spec : List String) (t : RawTable) :
    Except String Bool :=
  if (recognizedCols spec t).length = 0 ∨ t.size = 0 then
    .error "DataFrame does not contain any recognized columns or has no entries"
  else
    .ok (decide (unrecognizedCols spec t ≠ []))

/-- The four logical tables `add_data` accepts. -/
inductive TableKind
  | trips
  | legs
  | links
  | network
deriving DecidableEq, Repr

/-- The stored tables of a scenario at schema level. -/
structure StoredTables where
  trips : Option RawTable
  legs : Option RawTable
  links : Option RawTable
  network : Option RawTable
deriving DecidableEq, Repr

/-- The exceptions `add_data` can raise: the schema `ValueError` of
`_check_specification_compliance` (the spec's SchemaError), and the pandas
`KeyError` raised by `groupby("trip_id")` during `leg_number` synthesis
when the column named in it is absent. -/
inductive IngestError
  | schemaError (msg : String)
  | keyError (col : String)
deriving DecidableEq, Repr

/-- Identifier/sequence-column synthesis performed by `add_data`
(`scenario.py` 210-235) after the compliance check passed: add `trip_id`,
`leg_id`/`leg_number` or `link_id` when absent.  Returns the table as
stored at the end of synthesis together with `none` on success, or
`some col` when the `leg_number` synthesis raises: for a legs table
without `leg_number`, `self._legs_df.groupby("trip_id")`
(`scenario.py` 225-228) raises `KeyError` if `trip_id` is also absent —
at that point `leg_id` has already been added in place, so the partially
synthesized table is what remains stored. -/
def synthesize (k : TableKind) (t : RawTable) : RawTable × Option String :=
  match k with
  | .trips =>
    ((if "trip_id" ∈ t.cols then t else { t with cols := t.cols ++ ["trip_id"] }), none)
  | .legs =>
    let t1 := if "leg_id" ∈ t.cols then t else { t with cols := t.cols ++ ["leg_id"] }
    if "leg_number" ∈ t1.cols then (t1, none)
    else if "trip_id" ∈ t1.cols then ({ t1 with cols := t1.cols ++ ["leg_number"] }, none)
    else (t1, some "trip_id")
  | .links =>
    ((if "link_id" ∈ t.cols then t else { t with cols := t.cols ++ ["link_id"] }), none)
  | .network => (t, none)

/-- Store a table under its kind. -/
def storeTable (st : StoredTables) (k : TableKind) (t : RawTable) : StoredTables :=
  match k with
  | .trips => { st with trips := some t }
  | .legs => { st with legs := some t }
  | .links => { st with links := some t }
  | .network => { st with network := some t }

/-- Embedding of `Scenario.add_data` (`scenario.py` 204-243) for one table,
returning the post-call stored tables together with the outcome.  The
compliance check runs first and its error propagates before the stored
table is assigned and before any identifier column is synthesized, so on a
schema error the state is unchanged; when the check passes the table is
assigned and synthesized in place, and a failing `leg_number` synthesis
(`KeyError`) leaves the partially synthesized table assigned; otherwise
the warning flag of the check is reported. -/
def add_data (spec : TableKind → List String) (st : StoredTables)
    (k : TableKind) (t : RawTable) : StoredTables × Except IngestError Bool :=
  match check_specification_compliance (spec k) t with
  | .error e => (st, .error (.schemaError e))
  | .ok warned =>
    match synthesize k t with
    | (t1, none) => (storeTable st k t1, .ok warned)
    | (t1, some col) => (storeTable st k t1, .error (.keyError col))

/-- Embedding of `Scenario._add_time_indices` (`scenario.py` 1154-1163):
assign each time value `t` (seconds) the bin `t // (time_interval * 60)`,
with the bin width in minutes defaulting to the
`default_time_agg_interval` setting. -/
def add_time_indices (s : Settings) (time_interval : Option Nat)
    (times : List Int) : List (Int × Int) :=
  let ti : Nat := time_interval.getD s.default_time_agg_interval
  times.map (fun t => (t, Int.fdiv t ((ti : Int) * 60)))

end Scenario

namespace DRTScenario

/-- Substring containment on strings, the semantics of
`Series.str.contains(label)` for the metacharacter-free mode labels used
as DRT mode names. -/
def strContainsSub (hay needle : String) : Bool :=
  decide (needle.data <:+: hay.data)

/-- Embedding of the leg selection of `DRTScenario.get_eta`
(`drtscenario.py` 74-75): the legs whose statistics are produced are those
whose `mode` equals the string literal "drt" (the configured `drt_mode`
setting is not consulted). -/
def eta_selected_legs (sc : Scenario) : List LegRow :=
  sc.legs.filter (fun l => decide (l.mode = "drt"))

/-- Embedding of the leg selection of `DRTScenario.get_eta_day`
(`drtscenario.py` 109-110), which uses the same literal "drt" filter. -/
def eta_day_selected_legs (sc : Scenario) : List LegRow :=
  sc.legs.filter (fun l => decide (l.mode = "drt"))

/-- Embedding of the DRT-trip membership of
`DRTScenario.get_drt_intermodal_analysis` (`drtscenario.py` 141-150):
trip ids flagged by `contains_drt` when that column exists, else trip ids of
legs whose mode is the configured `drt_mode`. -/
def drt_trip_ids (sc : Scenario) : List String :=
  if sc.trips.hasContainsDrt then
    dropDuplicates ((sc.trips.rows.filter (fun t => t.contains_drt)).map (fun t => t.trip_id))
  else
    dropDuplicates
      ((sc.legs.filter (fun l => decide (l.mode = sc.settings.drt_mode))).map (fun l => l.trip_id))

/-- Embedding of the walk filter of `get_drt_intermodal_analysis`
(`drtscenario.py` 153-156): legs of DRT trips whose mode is not the
configured `walk_mode`, in table order. -/
def walkFilteredLegs (sc : Scenario) : List LegRow :=
  sc.legs.filter
    (fun l => decide (l.trip_id ∈ drt_trip_ids sc ∧ l.mode ≠ sc.settings.walk_mode))

/-- Per-trip 1-based running counter, the semantics of
`groupby("trip_id").cumcount() + 1` (`drtscenario.py` 157-159); `seen` holds
the trip ids of the rows already numbered. -/
def cumcountNumbers (seen : List String) : List LegRow → List (LegRow × Nat)
  | [] => []
  | l :: rest => (l, seen.count l.trip_id + 1) :: cumcountNumbers (l.trip_id :: seen) rest

/-- A walk-filtered leg together with its recomputed `leg_number` and the
recomputed per-trip `legs_count`. -/
structure NumberedLeg where
  leg : LegRow
  leg_number : Nat
  legs_count : Nat
deriving DecidableEq, Repr

/-- Per-trip maximum of the recomputed leg numbers, the semantics of
`groupby("trip_id")["leg_number"].transform("max")`
(`drtscenario.py` 160-162). -/
def legsCountOf (numbered : List (LegRow × Nat)) (tid : String) : Nat :=
  ((numbered.filter (fun p => decide (p.1.trip_id = tid))).map (fun p => p.2)).foldr max 0

/-- Embedding of `drt_legs_no_walk` with its recomputed `leg_number` and
`legs_count` columns (`drtscenario.py` 153-162). -/
def drt_legs_no_walk (sc : Scenario) : List NumberedLeg :=
  let numbered := cumcountNumbers [] (walkFilteredLegs sc)
  numbered.map
    (fun p => { leg := p.1, leg_number := p.2, legs_count := legsCountOf numbered p.1.trip_id })

/-- Embedding of `drt_numbers` (`drtscenario.py` 164-169): the
`(trip_id, drt_number)` pairs of DRT-mode rows of `drt_legs_no_walk`,
de-duplicated keeping the first occurrence. -/
def drt_numbers (sc : Scenario) : List (String × Nat) :=
  dropDuplicates
    (((drt_legs_no_walk sc).filter (fun n => decide (n.leg.mode = sc.settings.drt_mode))).map
      (fun n => (n.leg.trip_id, n.leg_number)))

/-- Left merge on `trip_id` of the numbered legs with the anchor pairs, the
semantics of `drt_legs_no_walk.merge(drt_numbers, "left", "trip_id")`
(`drtscenario.py` 173): each leg row is repeated once per matching anchor,
and kept once with a missing (`NaN`, here `none`) `drt_number` when no
anchor matches. -/
def mergeLeftAnchors (legs : List NumberedLeg) (anchors : List (String × Nat)) :
    List (NumberedLeg × Option Nat) :=
  legs.flatMap (fun n =>
    let ms := anchors.filter (fun a => decide (a.1 = n.leg.trip_id))
    if ms.isEmpty then [(n, none)] else ms.map (fun a => (n, some a.2)))

/-- The row filter of `drt_adjacent_legs` (`drtscenario.py` 177-188): keep a
row when `drt_number == 1 and legs_count == 1`, or when
`abs(leg_number - drt_number) == 1`; every comparison with a missing
`drt_number` is false (`NaN` semantics). -/
def adjacencyKeep (leg_number legs_count : Nat) (dn : Option Nat) : Bool :=
  match dn with
  | none => false
  | some d =>
    (decide (d = 1) && decide (legs_count = 1))
      || decide (((leg_number : Int) - (d : Int)).natAbs = 1)

/-- A retained row of `drt_adjacent_legs` with its `order` column. -/
structure AdjacentLeg where
  leg : LegRow
  leg_number : Nat
  legs_count : Nat
  drt_number : Option Nat
  order : String
deriving DecidableEq, Repr

/-- The `order` column of `np.select` (`drtscenario.py` 191-198): "direct"
when `leg_number == drt_number`, "before" when smaller, "after" when
greater; a missing `drt_number` satisfies no condition and gets the
`np.select` default `0` (such rows never pass `adjacencyKeep`). -/
def orderColumn (leg_number : Nat) (dn : Option Nat) : String :=
  match dn with
  | none => "0"
  | some d => if leg_number = d then "direct" else if leg_number < d then "before" else "after"

/-- Embedding of `drt_adjacent_legs` after filtering and classification
(`drtscenario.py` 173-198), the result of steps 2-5 of the intermodal
analysis (the subsequent optional renaming and the final group-count are
not needed by the properties under verification). -/
def drt_adjacent_legs (sc : Scenario) : List AdjacentLeg :=
  ((mergeLeftAnchors (drt_legs_no_walk sc) (drt_numbers sc)).filter
      (fun p => adjacencyKeep p.1.leg_number p.1.legs_count p.2)).map
    (fun p =>
      { leg := p.1.leg, leg_number := p.1.leg_number, legs_count := p.1.legs_count,
        drt_number := p.2, order := orderColumn p.1.leg_number p.2 })

/-- Embedding of `DRTScenario.get_pooling_share` (`drtscenario.py` 232-261):
the first `n` value of the performance modal split whose mode is the
configured `drt_mode`, divided by the first such `n` value of the vehicle
kilometres; each failing lookup (`IndexError` on `.values[0]`) is rewrapped
into a descriptive error. -/
def get_pooling_share (sc : Scenario) : Except String ℚ :=
  match Scenario.get_modal_split sc "performance" [] none with
  | .error e => .error e
  | .ok df_modal_split =>
    match ((df_modal_split.filter (fun r => decide (r.1 = sc.settings.drt_mode))).map
        (fun r => r.2.1)).head? with
    | none =>
      .error ("No legs with DRT mode `" ++ sc.settings.drt_mode
        ++ "` could be found. Make sure there are DRT legs in the legs_df and setting `drt_mode` is correctly specified")
    | some person_km =>
      match ((Scenario.get_vehicle_km sc [] none).filter
          (fun r => decide (r.1 = sc.settings.drt_mode))).map (fun r => r.2) |>.head? with
      | none =>
        .error ("No vehicles with DRT mode `" ++ sc.settings.drt_mode
          ++ "` could be found on any of the links. Make sure there are DRT vehicles routed on the links in the links_df and setting `drt_mode` is correctly specified")
      | some vehicle_km => .ok (person_km / vehicle_km)

/-- Embedding of `DRTScenario.get_n_drt_rides` (`drtscenario.py` 33-55):
prefer the boolean `contains_drt` column, else substring-match `all_modes`
against the configured `drt_mode`, else exact-match `main_mode`. -/
def get_n_drt_rides (sc : Scenario) : Nat :=
  if sc.trips.hasContainsDrt then
    (sc.trips.rows.filter (fun t => t.contains_drt)).length
  else if sc.trips.hasAllModes then
    (sc.trips.rows.filter (fun t => strContainsSub t.all_modes sc.settings.drt_mode)).length
  else
    (sc.trips.rows.filter (fun t => decide (t.main_mode = sc.settings.drt_mode))).length

end DRTScenario

namespace Comparison

/-- The Python exceptions relevant to `Comparison.get_modal_shift`:
subscripting a dict with a missing key raises `KeyError`; the handler in
the source catches only `IndexError`; the rewrapped descriptive error is a
`ValueError`. -/
inductive PyError
  | keyError (key : String)
  | indexError (msg : String)
  | valueError (msg : String)
deriving DecidableEq, Repr

/-- Python dict subscription `d[k]`: the value when the key is present,
`KeyError` otherwise. -/
def dictGet (d : List (String × α)) (k : String) : Except PyError α :=
  match d.lookup k with
  | some v => .ok v
  | none => .error (.keyError k)

/-- Embedding of the policy-scenario lookup of `Comparison.get_modal_shift`
(`comparison.py` 28-34): `self._policy_scenarios[policy_scenario_code]`
inside `try: ... except IndexError:`; only an `IndexError` would be
rewrapped into the descriptive `ValueError`, every other exception
propagates unchanged. -/
def lookupPolicyScenario (policy_scenarios : List (String × α))
    (policy_scenario_code : String) : Except PyError α :=
  match dictGet policy_scenarios policy_scenario_code with
  | .ok sc => .ok sc
  | .error e =>
    match e with
    | .indexError _ =>
      .error (.valueError ("Scenario with code " ++ policy_scenario_code
        ++ " is not contained in the provided policy scenarios"))
    | other => .error other

end Comparison

/-! Concrete fixtures used by the claim theorems and witnesses. -/

/-- Trip-row builder for fixtures. -/
def mkTrip (id mm : String) (cd : Bool) (am : String) : TripRow :=
  { trip_id := id, person_id := "p", main_mode := mm, contains_drt := cd,
    all_modes := am, start_time := 0 }

/-- Leg-row builder for fixtures. -/
def mkLeg (lid tid m : String) (line : Option String) (dist : ℚ) : LegRow :=
  { leg_id := lid, trip_id := tid, mode := m, line_id := line,
    routed_distance := dist, start_time := 0 }

/-- Link-row builder for fixtures. -/
def mkLink (lid vid m : String) (enter : Int) (dist : ℚ) : LinkRow :=
  { link_id := lid, vehicle_id := vid, person_id := "p", mode := m,
    link_enter_time := enter, distance_travelled := dist }

/-- An empty trips table (no optional columns). -/
def noTrips : TripsTable := { rows := [], hasContainsDrt := false, hasAllModes := false }

/-- Fixture for the `get_n_drt_rides` fallback: three rows flagged by
`contains_drt`, two rows whose `all_modes` contains "drt", one row whose
`main_mode` is "drt"; all three candidate columns would give different
counts (3, 2, 1). -/
def tripsC3 : List TripRow :=
  [mkTrip "t1" "car" true "pt", mkTrip "t2" "car" true "pt",
   mkTrip "t5" "bike" true "pt",
   mkTrip "t3" "drt" false "walk-drt-walk", mkTrip "t4" "walk" false "drt-shuttle"]

/-- The C3 fixture with both optional columns present. -/
def scC3a : Scenario :=
  { settings := defaultSettings,
    trips := { rows := tripsC3, hasContainsDrt := true, hasAllModes := true },
    legs := [], links := [] }

/-- The C3 fixture with only the `all_modes` column present. -/
def scC3b : Scenario :=
  { settings := defaultSettings,
    trips := { rows := tripsC3, hasContainsDrt := false, hasAllModes := true },
    legs := [], links := [] }

/-- The C3 fixture with neither optional column present. -/
def scC3c : Scenario :=
  { settings := defaultSettings,
    trips := { rows := tripsC3, hasContainsDrt := false, hasAllModes := false },
    legs := [], links := [] }


/-- Fixture scenario with one car trip and one car leg of 1000 m. -/
def scSimple : Scenario :=
  { settings := defaultSettings,
    trips := { rows := [mkTrip "t1" "car" false "car"],
               hasContainsDrt := false, hasAllModes := false },
    legs := [mkLeg "l1" "t1" "car" none 1000], links := [] }

/-- A registered-policy-scenarios dict with the single code "p1"
(the stored payload is irrelevant to the lookup). -/
def policyDictC7 : List (String × Nat) := [("p1", 0)]

/-- Empty stored tables for the C5 witness. -/
def stEmpty : Scenario.StoredTables :=
  { trips := none, legs := none, links := none, network := none }

/-- A one-column table specification for the C5 witness. -/
def specC5 : Scenario.TableKind → List String := fun _ => ["main_mode"]

/-- A table with one recognized and one unrecognized column for C5. -/
def tblC5 : Scenario.RawTable := { cols := ["main_mode", "junk"], nrows := 2 }

/-- A legs-table specification recognizing `trip_id`, `mode` and
`leg_number`, for the C5 counterexample. -/
def specLegsC5 : Scenario.TableKind → List String :=
  fun _ => ["trip_id", "mode", "leg_number"]

/-- A legs table with a recognized `mode` column and an unrecognized
column, but with neither `leg_number` nor `trip_id`: it passes the schema
check, yet its `leg_number` synthesis raises `KeyError` on
`groupby("trip_id")`. -/
def tblLegsC5 : Scenario.RawTable := { cols := ["mode", "junk"], nrows := 2 }

/-- Fixture for the C2 counterexample: a single surviving leg whose
`routed_distance` is 0, so the performance split total is 0. -/
def scC2bad : Scenario :=
  { settings := defaultSettings, trips := noTrips,
    legs := [mkLeg "l1" "t1" "car" none 0], links := [] }

/-- Fixture for the C6 witness: one DRT leg of 3000 m and one DRT link of
1000 m, giving a pooling share of 3. -/
def scDrt : Scenario :=
  { settings := defaultSettings, trips := noTrips,
    legs := [mkLeg "l1" "t1" "drt" none 3000],
    links := [mkLink "k1" "v1" "drt" 0 1000] }

namespace DRTScenario

/-- Position-based restatement of the recomputed leg number: one plus the
number of earlier walk-filtered legs of the same trip. -/
def seqNumberAt (L : List LegRow) (i : Nat) (h : i < L.length) : Nat :=
  ((L.take i).filter (fun x => decide (x.trip_id = (L.get ⟨i, h⟩).trip_id))).length + 1

/-- Number of walk-filtered legs of a trip. -/
def tripTotal (L : List LegRow) (tid : String) : Nat :=
  (L.filter (fun x => decide (x.trip_id = tid))).length

end DRTScenario

/-- Fixture for C10: the configured `drt_mode` is "odm", one trip and one
leg use mode "odm". -/
def scC10 : Scenario :=
  { settings := { defaultSettings with drt_mode := "odm" },
    trips := { rows := [mkTrip "t1" "odm" false ""],
               hasContainsDrt := false, hasAllModes := false },
    legs := [mkLeg "l1" "t1" "odm" none 1000], links := [] }

/-- The rows `get_drt_intermodal_analysis` retains and classifies on the C1
fixture: the pt legs adjacent to the DRT leg ("before"/"after"), the sole
non-walk DRT leg ("direct"), and nothing at distance 2 or more. -/
def expectedC1 : List DRTScenario.AdjacentLeg :=
  [{ leg := mkLeg "l2" "t1" "pt" (some "A") 0, leg_number := 1, legs_count := 3,
     drt_number := some 2, order := "before" },
   { leg := mkLeg "l4" "t1" "pt" (some "B") 0, leg_number := 3, legs_count := 3,
     drt_number := some 2, order := "after" },
   { leg := mkLeg "l7" "t2" "pt" (some "D") 0, leg_number := 2, legs_count := 5,
     drt_number := some 3, order := "before" },
   { leg := mkLeg "l9" "t2" "pt" (some "E") 0, leg_number := 4, legs_count := 5,
     drt_number := some 3, order := "after" },
   { leg := mkLeg "l12" "t3" "drt" none 0, leg_number := 1, legs_count := 1,
     drt_number := some 1, order := "direct" }]

/-- The legs fixture for the intermodal analysis: trip t1 is
[walk, pt A, drt, pt B, walk], trip t2 is [pt C, pt D, drt, pt E, pt F]
(its outer pt legs are at distance 2 from the DRT leg), trip t3 is
[walk, drt] (sole non-walk leg). -/
def scC1 : Scenario :=
  { settings := defaultSettings, trips := noTrips,
    legs := [mkLeg "l1" "t1" "walk" none 0, mkLeg "l2" "t1" "pt" (some "A") 0,
             mkLeg "l3" "t1" "drt" none 0, mkLeg "l4" "t1" "pt" (some "B") 0,
             mkLeg "l5" "t1" "walk" none 0,
             mkLeg "l6" "t2" "pt" (some "C") 0, mkLeg "l7" "t2" "pt" (some "D") 0,
             mkLeg "l8" "t2" "drt" none 0, mkLeg "l9" "t2" "pt" (some "E") 0,
             mkLeg "l10" "t2" "pt" (some "F") 0,
             mkLeg "l11" "t3" "walk" none 0, mkLeg "l12" "t3" "drt" none 0],
    links := [] }

theorem mem_dropDupAux [DecidableEq α] (l : List α) :
    ∀ (seen : List α) (x : α), x ∈ dropDupAux seen l ↔ x ∈ l ∧ x ∉ seen := by
  induction l with
  | nil => intro seen x; simp [dropDupAux]
  | cons a as ih =>
    intro seen x
    by_cases ha : a ∈ seen
    · simp only [dropDupAux, if_pos ha, ih, List.mem_cons]
      by_cases hxa : x = a
      · subst hxa; simp [ha]
      · simp [hxa]
    · simp only [dropDupAux, if_neg ha, List.mem_cons, ih, not_or]
      by_cases hxa : x = a
      · subst hxa; simp [ha]
      · simp [hxa]

theorem mem_dropDuplicates [DecidableEq α] (l : List α) (x : α) :
    x ∈ dropDuplicates l ↔ x ∈ l := by
  simp [dropDuplicates, mem_dropDupAux]

/-! Claim C4: time binning. -/

/-- C4: `_add_time_indices` assigns every row
`time_index = floor(time_seconds / (bin_width_minutes * 60))` with no
wraparound (values at or past 24 h get an index exceeding 23 rather than
being clamped or reduced modulo a day); `time_interval = 60` on 3661 s
yields index 1; an omitted `time_interval` uses the scenario's
`default_time_agg_interval` setting. -/
theorem add_time_indices_floor_no_wraparound :
    (∀ (s : Settings) (ti : Option Nat) (times : List Int),
        Scenario.add_time_indices s ti times
          = times.map (fun t =>
              (t, Int.fdiv t (((ti.getD s.default_time_agg_interval : Nat) : Int) * 60))))
    ∧ (∀ (s : Settings) (times : List Int),
        Scenario.add_time_indices s none times
          = Scenario.add_time_indices s (some s.default_time_agg_interval) times)
    ∧ (∀ (s : Settings) (t : Int), 86400 ≤ t →
        ∀ p ∈ Scenario.add_time_indices s (some 60) [t], 23 < p.2)
    ∧ Scenario.add_time_indices defaultSettings (some 60) [3661] = [(3661, 1)] := by
  refine ⟨fun s ti times => rfl, fun s times => rfl, ?_, by decide⟩
  intro s t ht p hp
  simp only [Scenario.add_time_indices, Option.getD, List.map, List.mem_singleton] at hp
  subst hp
  have h36 : ((60 : Nat) : Int) * 60 = 3600 := by norm_num
  simp only [h36]
  have h1 : Int.fdiv t 3600 = t / 3600 := Int.fdiv_eq_ediv t (by norm_num)
  have h2 : (86400 : Int) / 3600 ≤ t / 3600 := Int.ediv_le_ediv (by norm_num) ht
  have h3 : (86400 : Int) / 3600 = 24 := by decide
  simp only [h1]
  omega

/-- Witness for C4 at the concrete time 90000 s (25 h): bin index 25 > 23. -/
theorem add_time_indices_floor_no_wraparound_witness :
    23 < (((90000 : Int), (25 : Int)).2) :=
  add_time_indices_floor_no_wraparound.2.2.1 defaultSettings 90000 (by decide)
    ((90000 : Int), (25 : Int)) (by decide)

/-! Claim C3: `get_n_drt_rides` fallback precedence. -/

/-- C3: `get_n_drt_rides` counts rows where `contains_drt` is true when that
column exists; otherwise rows whose `all_modes` contains the configured
`drt_mode` as a substring when that column exists; otherwise rows whose
`main_mode` equals the configured `drt_mode`; the concrete fixture (counts
3 / 2 / 1 under the three rules) pins down the precedence. -/
theorem get_n_drt_rides_fallback :
    (∀ sc : Scenario, sc.trips.hasContainsDrt = true →
        DRTScenario.get_n_drt_rides sc
          = (sc.trips.rows.filter (fun t => t.contains_drt)).length)
    ∧ (∀ sc : Scenario, sc.trips.hasContainsDrt = false → sc.trips.hasAllModes = true →
        DRTScenario.get_n_drt_rides sc
          = (sc.trips.rows.filter
              (fun t => DRTScenario.strContainsSub t.all_modes sc.settings.drt_mode)).length)
    ∧ (∀ sc : Scenario, sc.trips.hasContainsDrt = false → sc.trips.hasAllModes = false →
        DRTScenario.get_n_drt_rides sc
          = (sc.trips.rows.filter (fun t => decide (t.main_mode = sc.settings.drt_mode))).length)
    ∧ DRTScenario.get_n_drt_rides scC3a = 3
    ∧ DRTScenario.get_n_drt_rides scC3b = 2
    ∧ DRTScenario.get_n_drt_rides scC3c = 1 := by
  refine ⟨?_, ?_, ?_, by decide, by decide, by decide⟩
  · intro sc h; simp [DRTScenario.get_n_drt_rides, h]
  · intro sc h1 h2; simp [DRTScenario.get_n_drt_rides, h1, h2]
  · intro sc h1 h2; simp [DRTScenario.get_n_drt_rides, h1, h2]

/-- Witness for C3: the first fallback arm applied to the concrete fixture
with the `contains_drt` column present. -/
theorem get_n_drt_rides_fallback_witness :
    DRTScenario.get_n_drt_rides scC3a
      = (scC3a.trips.rows.filter (fun t => t.contains_drt)).length :=
  get_n_drt_rides_fallback.1 scC3a (by decide)

/-! Claim C10: `get_eta` / `get_eta_day` use the literal "drt". -/

/-- C10: the leg selections of `get_eta` and `get_eta_day` compare `mode` to
the fixed literal "drt" and are therefore independent of the `drt_mode`
setting, while `get_n_drt_rides` and the intermodal analysis honor the
setting: on the fixture whose `drt_mode` is "odm", the ETA selections are
empty but the ride count is 1 and the DRT trip set is nonempty. -/
theorem eta_uses_literal_drt_not_setting :
    (∀ sc sc' : Scenario, sc.legs = sc'.legs →
        DRTScenario.eta_selected_legs sc = DRTScenario.eta_selected_legs sc'
          ∧ DRTScenario.eta_day_selected_legs sc = DRTScenario.eta_day_selected_legs sc')
    ∧ (∀ sc : Scenario,
        DRTScenario.eta_selected_legs sc = sc.legs.filter (fun l => decide (l.mode = "drt"))
          ∧ DRTScenario.eta_day_selected_legs sc
              = sc.legs.filter (fun l => decide (l.mode = "drt")))
    ∧ DRTScenario.eta_selected_legs scC10 = []
    ∧ DRTScenario.eta_day_selected_legs scC10 = []
    ∧ DRTScenario.get_n_drt_rides scC10 = 1
    ∧ DRTScenario.drt_trip_ids scC10 = ["t1"] := by
  refine ⟨?_, fun sc => ⟨rfl, rfl⟩, by decide, by decide, by decide, by decide⟩
  intro sc sc' h
  constructor
  · simp [DRTScenario.eta_selected_legs, h]
  · simp [DRTScenario.eta_day_selected_legs, h]

/-- Witness for C10: setting-independence applied to the concrete fixture
against itself. -/
theorem eta_uses_literal_drt_not_setting_witness :
    DRTScenario.eta_selected_legs scC10 = DRTScenario.eta_selected_legs scC10
      ∧ DRTScenario.eta_day_selected_legs scC10 = DRTScenario.eta_day_selected_legs scC10 :=
  eta_uses_literal_drt_not_setting.1 scC10 scC10 rfl

/-! Claim C7: missing policy-scenario code in `get_modal_shift`. -/


/-- C7 (code evaluation at the failing input): looking up a code that is
not registered raises a bare `KeyError` that propagates uncaught, because
the handler in the source catches `IndexError` while dict subscription
raises `KeyError`; the descriptive rewrapped error is unreachable. -/
theorem get_modal_shift_missing_code_keyerror :
    (∀ (d : List (String × Nat)) (code : String), d.lookup code = none →
        Comparison.lookupPolicyScenario d code = .error (.keyError code))
    ∧ Comparison.lookupPolicyScenario policyDictC7 "p2" = .error (.keyError "p2")
    ∧ ∀ msg, Comparison.lookupPolicyScenario policyDictC7 "p2"
        ≠ .error (.valueError msg) := by
  have hval : Comparison.lookupPolicyScenario policyDictC7 "p2"
      = .error (.keyError "p2") := rfl
  refine ⟨?_, hval, ?_⟩
  · intro d code h
    simp [Comparison.lookupPolicyScenario, Comparison.dictGet, h]
  · intro msg h
    rw [hval] at h
    simp at h

/-- Witness for C7: the general unregistered-code arm applied to the
concrete dict and the missing code "p2". -/
theorem get_modal_shift_missing_code_keyerror_witness :
    Comparison.lookupPolicyScenario policyDictC7 "p2"
      = .error (.keyError "p2") :=
  get_modal_shift_missing_code_keyerror.1 policyDictC7 "p2" (by decide)

/-! Claim C5: schema validation in `add_data`. -/




/-- C5 counterexample: a legs table with a recognized `mode` column, an
unrecognized column, two rows, and neither `leg_number` nor `trip_id`
passes the schema check and emits the warning, yet ingestion does not
proceed: the `leg_number` synthesis raises `KeyError` on
`groupby("trip_id")` after the table (with `leg_id` already added in
place) has been assigned, refuting the claim's "ingestion proceeds" arm
at this input. -/
theorem add_data_keyerror_counterexample :
    Scenario.recognizedCols (specLegsC5 Scenario.TableKind.legs) tblLegsC5 ≠ []
    ∧ tblLegsC5.size ≠ 0
    ∧ Scenario.unrecognizedCols (specLegsC5 Scenario.TableKind.legs) tblLegsC5 ≠ []
    ∧ Scenario.add_data specLegsC5 stEmpty Scenario.TableKind.legs tblLegsC5
        = ({ stEmpty with
              legs := some { cols := ["mode", "junk", "leg_id"], nrows := 2 } },
            .error (.keyError "trip_id")) :=
  ⟨by decide, by decide, by decide, rfl⟩

/-- C5 amended: `add_data` raises the schema error exactly when the table
has zero recognized columns or zero entries, and that error precedes the
assignment of the stored table and any identifier-column synthesis (the
stored tables are unchanged on a schema error); when the check passes and
the synthesis succeeds, ingestion proceeds, storing the synthesized table
with the warning flag set iff unrecognized columns are present — except
that for a legs table lacking both `leg_number` and `trip_id` (the only
failing case, characterized below) the `leg_number` synthesis raises a
`KeyError` after the table has already been assigned. -/
theorem add_data_schema_error_iff :
    ∀ (spec : Scenario.TableKind → List String) (st : Scenario.StoredTables)
      (k : Scenario.TableKind) (t : Scenario.RawTable),
      ((∃ e, (Scenario.add_data spec st k t).2 = .error (.schemaError e))
          ↔ (Scenario.recognizedCols (spec k) t = [] ∨ t.size = 0))
        ∧ ((Scenario.recognizedCols (spec k) t = [] ∨ t.size = 0) →
            (Scenario.add_data spec st k t).1 = st)
        ∧ (Scenario.recognizedCols (spec k) t ≠ [] → t.size ≠ 0 →
            (Scenario.synthesize k t).2 = none →
            Scenario.add_data spec st k t
              = (Scenario.storeTable st k (Scenario.synthesize k t).1,
                  .ok (decide (Scenario.unrecognizedCols (spec k) t ≠ []))))
        ∧ (Scenario.recognizedCols (spec k) t ≠ [] → t.size ≠ 0 →
            ∀ c, (Scenario.synthesize k t).2 = some c →
              Scenario.add_data spec st k t
                = (Scenario.storeTable st k (Scenario.synthesize k t).1,
                    .error (.keyError c)))
        ∧ ((Scenario.synthesize k t).2 ≠ none
            ↔ (k = Scenario.TableKind.legs
                ∧ "leg_number" ∉ t.cols ∧ "trip_id" ∉ t.cols)) := by
  intro spec st k t
  have hsynth : (Scenario.synthesize k t).2 ≠ none
      ↔ (k = Scenario.TableKind.legs
          ∧ "leg_number" ∉ t.cols ∧ "trip_id" ∉ t.cols) := by
    cases k with
    | trips => simp [Scenario.synthesize]
    | links => simp [Scenario.synthesize]
    | network => simp [Scenario.synthesize]
    | legs =>
      by_cases hlid : "leg_id" ∈ t.cols
      · by_cases hln : "leg_number" ∈ t.cols
        · simp [Scenario.synthesize, hlid, hln]
        · by_cases htid : "trip_id" ∈ t.cols
          · simp [Scenario.synthesize, hlid, hln, htid]
          · simp [Scenario.synthesize, hlid, hln, htid]
      · by_cases hln : "leg_number" ∈ t.cols
        · simp [Scenario.synthesize, hlid, hln, List.mem_append]
        · by_cases htid : "trip_id" ∈ t.cols
          · simp [Scenario.synthesize, hlid, hln, htid, List.mem_append]
          · simp [Scenario.synthesize, hlid, hln, htid, List.mem_append]
  by_cases h : Scenario.recognizedCols (spec k) t = [] ∨ t.size = 0
  · have hcond : (Scenario.recognizedCols (spec k) t).length = 0 ∨ t.size = 0 := by
      rcases h with h | h
      · exact Or.inl (by rw [h]; rfl)
      · exact Or.inr h
    have herr : Scenario.add_data spec st k t
        = (st, .error (.schemaError
            "DataFrame does not contain any recognized columns or has no entries")) := by
      unfold Scenario.add_data Scenario.check_specification_compliance
      rw [if_pos hcond]
    refine ⟨⟨fun _ => h, fun _ => ⟨_, by rw [herr]⟩⟩, fun _ => by rw [herr],
      fun h1 h2 _ => ?_, fun h1 h2 c _ => ?_, hsynth⟩
    · rcases h with h | h
      · exact absurd h h1
      · exact absurd h h2
    · rcases h with h | h
      · exact absurd h h1
      · exact absurd h h2
  · have hcond : ¬((Scenario.recognizedCols (spec k) t).length = 0 ∨ t.size = 0) := by
      intro hc
      apply h
      rcases hc with hc | hc
      · exact Or.inl (List.length_eq_zero.mp hc)
      · exact Or.inr hc
    have hchk : Scenario.check_specification_compliance (spec k) t
        = .ok (decide (Scenario.unrecognizedCols (spec k) t ≠ [])) := by
      unfold Scenario.check_specification_compliance
      rw [if_neg hcond]
    have hrun : Scenario.add_data spec st k t
        = (match Scenario.synthesize k t with
            | (t1, none) =>
              (Scenario.storeTable st k t1,
                .ok (decide (Scenario.unrecognizedCols (spec k) t ≠ [])))
            | (t1, some col) =>
              (Scenario.storeTable st k t1, .error (.keyError col))) := by
      unfold Scenario.add_data
      rw [hchk]
    refine ⟨⟨?_, fun hc => absurd hc h⟩, fun hc => absurd hc h, ?_, ?_, hsynth⟩
    · rintro ⟨e, he⟩
      rw [hrun] at he
      rcases hsy : Scenario.synthesize k t with ⟨t1, o⟩
      rw [hsy] at he
      cases o with
      | none => simp at he
      | some c => simp at he
    · intro h1 h2 hnone
      have hpair : Scenario.synthesize k t = ((Scenario.synthesize k t).1, none) := by
        rw [← hnone]
      rw [hrun, hpair]
    · intro h1 h2 c hc
      have hpair : Scenario.synthesize k t = ((Scenario.synthesize k t).1, some c) := by
        rw [← hc]
      rw [hrun, hpair]

/-- Witness for C5: a trips table with one recognized and one unrecognized
column and two rows passes validation, its synthesis succeeds, it is
stored synthesized, and the unrecognized-columns warning fires. -/
theorem add_data_schema_error_iff_witness :
    Scenario.add_data specC5 stEmpty Scenario.TableKind.trips tblC5
      = (Scenario.storeTable stEmpty Scenario.TableKind.trips
          (Scenario.synthesize Scenario.TableKind.trips tblC5).1,
          .ok (decide
            (Scenario.unrecognizedCols (specC5 Scenario.TableKind.trips) tblC5 ≠ []))) :=
  (add_data_schema_error_iff specC5 stEmpty Scenario.TableKind.trips tblC5).2.2.1
    (by decide) (by decide) (by decide)

/-! Claim C9: performance modal split refines `get_person_km`. -/

/-- C9: `get_modal_split(split_type="performance")` returns exactly the rows
of `get_person_km` (same modes and `n` values in order) with a `share`
column attached, so the sums of the two `n` columns coincide. -/
theorem modal_split_performance_refines_person_km :
    ∀ (sc : Scenario) (exclude_modes : List String) (agg : Option String)
      (rows : List (String × ℚ × ℚ)),
      Scenario.get_modal_split sc "performance" exclude_modes agg = .ok rows →
        rows.map (fun r => (r.1, r.2.1)) = Scenario.get_person_km sc exclude_modes agg
          ∧ (rows.map (fun r => r.2.1)).sum
              = ((Scenario.get_person_km sc exclude_modes agg).map (fun r => r.2)).sum := by
  intro sc ex agg rows h
  have hrows : rows = Scenario.addShare (Scenario.get_person_km sc ex agg) := by
    simpa [Scenario.get_modal_split] using h.symm
  subst hrows
  constructor
  · simp [Scenario.addShare, List.map_map, Function.comp_def]
  · simp [Scenario.addShare, List.map_map, Function.comp_def]

/-- Witness for C9 on the one-leg fixture: the performance split row
("car", 1 km, share 1) projects to the person-km row ("car", 1 km). -/
theorem modal_split_performance_refines_person_km_witness :
    ([(("car" : String), (1 : ℚ), (1 : ℚ))].map (fun r => (r.1, r.2.1))
        = Scenario.get_person_km scSimple [] none)
      ∧ (([(("car" : String), (1 : ℚ), (1 : ℚ))].map (fun r => r.2.1)).sum
          = ((Scenario.get_person_km scSimple [] none).map (fun r => r.2)).sum) :=
  modal_split_performance_refines_person_km scSimple [] none
    [("car", 1, 1)] (by
      have h1 : Scenario.get_person_km scSimple [] none = [("car", (1 : ℚ))] := by
        simp [Scenario.get_person_km, scSimple, mkLeg, dropDuplicates, dropDupAux]
      simp [Scenario.get_modal_split, h1, Scenario.addShare])

/-! Claim C2: share normalization in `get_modal_split`. -/


theorem addShare_map_n (base : List (String × ℚ)) :
    (Scenario.addShare base).map (fun r => r.2.1) = base.map (fun r => r.2) := by
  simp [Scenario.addShare, List.map_map, Function.comp_def]

theorem addShare_share_eq (base : List (String × ℚ)) :
    ∀ r ∈ Scenario.addShare base,
      r.2.2 = r.2.1 / (base.map (fun x => x.2)).sum := by
  intro r hr
  simp only [Scenario.addShare, List.mem_map] at hr
  obtain ⟨a, _, rfl⟩ := hr
  rfl

theorem addShare_sum_share (base : List (String × ℚ))
    (h : (base.map (fun x => x.2)).sum ≠ 0) :
    ((Scenario.addShare base).map (fun r => r.2.2)).sum = 1 := by
  simp only [Scenario.addShare, List.map_map, Function.comp_def, div_eq_mul_inv]
  rw [List.sum_map_mul_right]
  exact mul_inv_cancel₀ h

theorem get_modal_split_ok_shape (sc : Scenario) (st : String)
    (ex : List String) (agg : Option String) (rows : List (String × ℚ × ℚ))
    (h : Scenario.get_modal_split sc st ex agg = .ok rows) :
    ∃ base, rows = Scenario.addShare base := by
  unfold Scenario.get_modal_split at h
  split_ifs at h
  · exact ⟨_, (Except.ok.injEq _ _).mp h |>.symm⟩
  · exact ⟨_, (Except.ok.injEq _ _).mp h |>.symm⟩

theorem volume_base_total_ne_zero (remapped : List TripRow) (h : remapped ≠ []) :
    ((((dropDuplicates (remapped.map (fun t => t.main_mode))).map
        (fun m =>
          (m, ((remapped.filter (fun t => decide (t.main_mode = m))).length : ℚ)))).map
      (fun x => x.2)).sum) ≠ 0 := by
  obtain ⟨t0, ht0⟩ := List.exists_mem_of_ne_nil remapped h
  have hm0 : t0.main_mode ∈ dropDuplicates (remapped.map (fun t => t.main_mode)) :=
    (mem_dropDuplicates _ _).mpr (List.mem_map_of_mem _ ht0)
  have hx0 :
      ((remapped.filter (fun t => decide (t.main_mode = t0.main_mode))).length : ℚ)
        ∈ ((dropDuplicates (remapped.map (fun t => t.main_mode))).map
            (fun m =>
              (m, ((remapped.filter (fun t => decide (t.main_mode = m))).length : ℚ)))).map
            (fun x => x.2) := by
    rw [List.map_map]
    exact List.mem_map_of_mem _ hm0
  have hx0ge :
      (1 : ℚ)
        ≤ ((remapped.filter (fun t => decide (t.main_mode = t0.main_mode))).length : ℚ) := by
    have hmem : t0 ∈ remapped.filter (fun t => decide (t.main_mode = t0.main_mode)) :=
      List.mem_filter.mpr ⟨ht0, by simp⟩
    exact_mod_cast List.length_pos_of_mem hmem
  have hnn :
      ∀ x ∈ ((dropDuplicates (remapped.map (fun t => t.main_mode))).map
          (fun m =>
            (m, ((remapped.filter (fun t => decide (t.main_mode = m))).length : ℚ)))).map
          (fun x => x.2), (0 : ℚ) ≤ x := by
    intro x hx
    rw [List.map_map] at hx
    obtain ⟨m, _, rfl⟩ := List.mem_map.mp hx
    exact Nat.cast_nonneg _
  have h1 := List.single_le_sum hnn _ hx0
  have h2 := le_trans hx0ge h1
  linarith

/-- C2 counterexample: on the fixture a leg survives filtering, yet the
performance split returns the single row ("car", 0, 0) whose share column
sums to 0, not 1 (pandas would return NaN from 0.0/0.0; in the exact
rational model 0/0 = 0; either way the sum is not 1 within any
tolerance). -/
theorem modal_split_share_sum_counterexample :
    scC2bad.legs.filter (fun l => decide (l.mode ∉ ([] : List String))) ≠ []
    ∧ Scenario.get_modal_split scC2bad "performance" [] none
        = .ok [("car", (0 : ℚ), (0 : ℚ))]
    ∧ ([(("car" : String), (0 : ℚ), (0 : ℚ))].map (fun r => r.2.2)).sum ≠ 1 := by
  refine ⟨by decide, ?_, by norm_num⟩
  have h1 : Scenario.get_person_km scC2bad [] none = [("car", (0 : ℚ))] := by
    simp [Scenario.get_person_km, scC2bad, mkLeg, dropDuplicates, dropDupAux]
  simp [Scenario.get_modal_split, h1, Scenario.addShare]

/-- C2 amended: in every successful `get_modal_split` result the share of
each row equals its `n` divided by the sum of `n` over the result rows, and
the shares sum to 1 whenever that total is nonzero; for
`split_type="volume"` the total is positive whenever at least one trip
survives filtering, so there the shares always sum to 1 on nonempty
filtered input (for "performance" the total can be 0 even with surviving
rows, as the counterexample shows). -/
theorem modal_split_share_normalization :
    (∀ (sc : Scenario) (st : String) (ex : List String) (agg : Option String)
        (rows : List (String × ℚ × ℚ)),
        Scenario.get_modal_split sc st ex agg = .ok rows →
          ∀ r ∈ rows, r.2.2 = r.2.1 / (rows.map (fun x => x.2.1)).sum)
    ∧ (∀ (sc : Scenario) (st : String) (ex : List String) (agg : Option String)
        (rows : List (String × ℚ × ℚ)),
        Scenario.get_modal_split sc st ex agg = .ok rows →
          (rows.map (fun x => x.2.1)).sum ≠ 0 →
          (rows.map (fun x => x.2.2)).sum = 1)
    ∧ (∀ (sc : Scenario) (ex : List String) (agg : Option String),
        sc.trips.rows.filter (fun t => decide (t.main_mode ∉ ex)) ≠ [] →
          ∃ rows, Scenario.get_modal_split sc "volume" ex agg = .ok rows
            ∧ (rows.map (fun x => x.2.2)).sum = 1) := by
  refine ⟨?_, ?_, ?_⟩
  · intro sc st ex agg rows h r hr
    obtain ⟨base, rfl⟩ := get_modal_split_ok_shape sc st ex agg rows h
    rw [addShare_map_n]
    exact addShare_share_eq base r hr
  · intro sc st ex agg rows h htot
    obtain ⟨base, rfl⟩ := get_modal_split_ok_shape sc st ex agg rows h
    rw [addShare_map_n] at htot
    exact addShare_sum_share base htot
  · intro sc ex agg hfil
    cases agg with
    | none =>
      refine ⟨_, rfl, addShare_sum_share _ (volume_base_total_ne_zero _ hfil)⟩
    | some name =>
      have hrem :
          (sc.trips.rows.filter (fun t => decide (t.main_mode ∉ ex))).map
            (fun t =>
              { t with main_mode := replaceVal (rulesetFor sc.settings name) t.main_mode })
            ≠ ([] : List TripRow) := by
        simpa using hfil
      refine ⟨_, rfl, addShare_sum_share _ (volume_base_total_ne_zero _ hrem)⟩

/-- Witness for C2: on the one-trip fixture the volume split result
("car", 1, 1) has a share column summing to 1. -/
theorem modal_split_share_normalization_witness :
    (([(("car" : String), (1 : ℚ), (1 : ℚ))]).map (fun x => x.2.2)).sum = 1 :=
  modal_split_share_normalization.2.1 scSimple "volume" [] none
    [("car", 1, 1)]
    (by
      simp [Scenario.get_modal_split, Scenario.addShare, scSimple, mkTrip,
        dropDuplicates, dropDupAux])
    (by norm_num)

/-! Claim C6: `get_pooling_share` error behaviour. -/


theorem addShare_filter_map_n (base : List (String × ℚ)) (q : String → Bool) :
    ((Scenario.addShare base).filter (fun r => q r.1)).map (fun r => r.2.1)
      = (base.filter (fun b => q b.1)).map (fun b => b.2) := by
  simp [Scenario.addShare, List.filter_map, List.map_map, Function.comp_def]

/-- C6: `get_pooling_share` fails if and only if the person-km result or the
vehicle-km result has no row with the configured `drt_mode`; when both have
one it returns the ratio of the first matching person-km value to the first
matching vehicle-km value (no NaN or division-by-zero path is taken for the
missing-row case). -/
theorem get_pooling_share_error_iff :
    ∀ sc : Scenario,
      ((∃ e, DRTScenario.get_pooling_share sc = .error e)
          ↔ ((Scenario.get_person_km sc [] none).filter
                (fun r => decide (r.1 = sc.settings.drt_mode)) = []
              ∨ (Scenario.get_vehicle_km sc [] none).filter
                (fun r => decide (r.1 = sc.settings.drt_mode)) = []))
        ∧ (∀ p v,
            (((Scenario.get_person_km sc [] none).filter
                (fun r => decide (r.1 = sc.settings.drt_mode))).map
              (fun r => r.2)).head? = some p →
            (((Scenario.get_vehicle_km sc [] none).filter
                (fun r => decide (r.1 = sc.settings.drt_mode))).map
              (fun r => r.2)).head? = some v →
            DRTScenario.get_pooling_share sc = .ok (p / v)) := by
  intro sc
  have hsplit : Scenario.get_modal_split sc "performance" [] none
      = .ok (Scenario.addShare (Scenario.get_person_km sc [] none)) := rfl
  have hshape : DRTScenario.get_pooling_share sc
      = match (((Scenario.get_person_km sc [] none).filter
            (fun r => decide (r.1 = sc.settings.drt_mode))).map (fun r => r.2)).head? with
        | none =>
          .error ("No legs with DRT mode `" ++ sc.settings.drt_mode
            ++ "` could be found. Make sure there are DRT legs in the legs_df and setting `drt_mode` is correctly specified")
        | some person_km =>
          match (((Scenario.get_vehicle_km sc [] none).filter
              (fun r => decide (r.1 = sc.settings.drt_mode))).map (fun r => r.2)).head? with
          | none =>
            .error ("No vehicles with DRT mode `" ++ sc.settings.drt_mode
              ++ "` could be found on any of the links. Make sure there are DRT vehicles routed on the links in the links_df and setting `drt_mode` is correctly specified")
          | some vehicle_km => .ok (person_km / vehicle_km) := by
    have h0 : DRTScenario.get_pooling_share sc
        = match (((Scenario.addShare (Scenario.get_person_km sc [] none)).filter
              (fun r => decide (r.1 = sc.settings.drt_mode))).map (fun r => r.2.1)).head? with
          | none =>
            .error ("No legs with DRT mode `" ++ sc.settings.drt_mode
              ++ "` could be found. Make sure there are DRT legs in the legs_df and setting `drt_mode` is correctly specified")
          | some person_km =>
            match (((Scenario.get_vehicle_km sc [] none).filter
                (fun r => decide (r.1 = sc.settings.drt_mode))).map (fun r => r.2)).head? with
            | none =>
              .error ("No vehicles with DRT mode `" ++ sc.settings.drt_mode
                ++ "` could be found on any of the links. Make sure there are DRT vehicles routed on the links in the links_df and setting `drt_mode` is correctly specified")
            | some vehicle_km => .ok (person_km / vehicle_km) := rfl
    rw [addShare_filter_map_n (Scenario.get_person_km sc [] none)
      (fun m => decide (m = sc.settings.drt_mode))] at h0
    exact h0
  constructor
  · rw [hshape]
    cases hP : (((Scenario.get_person_km sc [] none).filter
        (fun r => decide (r.1 = sc.settings.drt_mode))).map (fun r => r.2)).head? with
    | none =>
      have hPnil : (Scenario.get_person_km sc [] none).filter
          (fun r => decide (r.1 = sc.settings.drt_mode)) = [] := by
        have := List.head?_eq_none_iff.mp hP
        simpa using this
      simp [hPnil]
    | some p =>
      have hPne : ¬((Scenario.get_person_km sc [] none).filter
          (fun r => decide (r.1 = sc.settings.drt_mode)) = []) := by
        intro hc
        rw [hc] at hP
        simp at hP
      cases hV : (((Scenario.get_vehicle_km sc [] none).filter
          (fun r => decide (r.1 = sc.settings.drt_mode))).map (fun r => r.2)).head? with
      | none =>
        have hVnil : (Scenario.get_vehicle_km sc [] none).filter
            (fun r => decide (r.1 = sc.settings.drt_mode)) = [] := by
          have := List.head?_eq_none_iff.mp hV
          simpa using this
        simp [hPne, hVnil]
      | some v =>
        have hVne : ¬((Scenario.get_vehicle_km sc [] none).filter
            (fun r => decide (r.1 = sc.settings.drt_mode)) = []) := by
          intro hc
          rw [hc] at hV
          simp at hV
        simp [hPne, hVne]
  · intro p v hp hv
    rw [hshape, hp, hv]

/-- Witness for C6: on the fixture with a 3 km DRT leg and a 1 km DRT link
the pooling share is 3/1. -/
theorem get_pooling_share_error_iff_witness :
    DRTScenario.get_pooling_share scDrt = .ok ((3 : ℚ) / 1) :=
  (get_pooling_share_error_iff scDrt).2 3 1
    (by
      have h1 : Scenario.get_person_km scDrt [] none = [("drt", (3 : ℚ))] := by
        simp [Scenario.get_person_km, scDrt, mkLeg, dropDuplicates, dropDupAux]
        norm_num
      rw [h1]
      rfl)
    (by
      have h2 : Scenario.get_vehicle_km scDrt [] none = [("drt", (1 : ℚ))] := by
        simp [Scenario.get_vehicle_km, scDrt, mkLink, dropDuplicates, dropDupAux,
          dropDuplicatesBy, dropDupByAux]
      rw [h2]
      rfl)

/-! Claim C1: intermodal adjacency analysis. -/



theorem cumcount_length (L : List LegRow) :
    ∀ seen : List String, (DRTScenario.cumcountNumbers seen L).length = L.length := by
  induction L with
  | nil => intro seen; rfl
  | cons a as ih => intro seen; simp [DRTScenario.cumcountNumbers, ih]

theorem cumcount_get (L : List LegRow) :
    ∀ (seen : List String) (i : Nat) (h : i < L.length),
      (DRTScenario.cumcountNumbers seen L).get ⟨i, by rw [cumcount_length]; exact h⟩
        = (L.get ⟨i, h⟩,
           seen.count (L.get ⟨i, h⟩).trip_id
             + ((L.take i).filter
                 (fun x => decide (x.trip_id = (L.get ⟨i, h⟩).trip_id))).length + 1) := by
  induction L with
  | nil => intro seen i h; exact absurd h (by simp)
  | cons a as ih =>
    intro seen i h
    cases i with
    | zero => simp [DRTScenario.cumcountNumbers]
    | succ j =>
      have hj : j < as.length := Nat.lt_of_succ_lt_succ h
      have hrec := ih (a.trip_id :: seen) j hj
      simp only [DRTScenario.cumcountNumbers, List.get_cons_succ, List.take_succ_cons,
        List.filter_cons] at hrec ⊢
      rw [hrec]
      by_cases hat : a.trip_id = (as.get ⟨j, hj⟩).trip_id
      · simp [List.count_cons, hat]
        omega
      · have hat2 : ¬a.trip_id = (as.get ⟨j, hj⟩).trip_id := hat
        simp only [List.get_eq_getElem] at hat2
        simp [List.count_cons, hat2]

theorem cumcount_numbers_for_trip (L : List LegRow) :
    ∀ (seen : List String) (tid : String),
      ((DRTScenario.cumcountNumbers seen L).filter
          (fun p => decide (p.1.trip_id = tid))).map (fun p => p.2)
        = List.range' (seen.count tid + 1)
            ((L.filter (fun x => decide (x.trip_id = tid))).length) := by
  induction L with
  | nil => intro seen tid; simp [DRTScenario.cumcountNumbers]
  | cons a as ih =>
    intro seen tid
    by_cases hat : a.trip_id = tid
    · simp only [DRTScenario.cumcountNumbers, List.filter_cons]
      rw [hat]
      have hcnt : (tid :: seen).count tid = seen.count tid + 1 := by
        simp [List.count_cons]
      simp [ih (tid :: seen) tid, hcnt, List.range'_succ]
    · have hat2 : ¬tid = a.trip_id := fun hh => hat hh.symm
      simp only [DRTScenario.cumcountNumbers, List.filter_cons]
      have hcnt : (a.trip_id :: seen).count tid = seen.count tid := by
        simp [List.count_cons, hat2]
      simp [ih (a.trip_id :: seen) tid, hcnt, hat]

theorem foldr_max_range' :
    ∀ (k s : Nat), (List.range' s k).foldr max 0 = if k = 0 then 0 else s + k - 1 := by
  intro k
  induction k with
  | zero => intro s; simp [List.range']
  | succ k' ih =>
    intro s
    rw [List.range'_succ]
    simp only [List.foldr_cons]
    rw [ih (s + 1)]
    cases k' with
    | zero => simp
    | succ k2 => simp; omega

theorem legsCountOf_cumcount (L : List LegRow) (tid : String) :
    DRTScenario.legsCountOf (DRTScenario.cumcountNumbers [] L) tid
      = DRTScenario.tripTotal L tid := by
  unfold DRTScenario.legsCountOf DRTScenario.tripTotal
  rw [cumcount_numbers_for_trip L [] tid]
  simp only [List.count_nil, Nat.zero_add]
  rw [foldr_max_range']
  cases hk : (L.filter (fun x => decide (x.trip_id = tid))).length with
  | zero => rfl
  | succ k => simp

theorem mem_drt_legs_no_walk (sc : Scenario) (n : DRTScenario.NumberedLeg) :
    n ∈ DRTScenario.drt_legs_no_walk sc
      ↔ ∃ (i : Nat) (h : i < (DRTScenario.walkFilteredLegs sc).length),
          n.leg = (DRTScenario.walkFilteredLegs sc).get ⟨i, h⟩
          ∧ n.leg_number = DRTScenario.seqNumberAt (DRTScenario.walkFilteredLegs sc) i h
          ∧ n.legs_count
              = DRTScenario.tripTotal (DRTScenario.walkFilteredLegs sc) n.leg.trip_id := by
  unfold DRTScenario.drt_legs_no_walk
  constructor
  · intro hn
    obtain ⟨p, hp, hmk⟩ := List.mem_map.mp hn
    obtain ⟨⟨i, hilen⟩, hget⟩ := List.mem_iff_get.mp hp
    have hi : i < (DRTScenario.walkFilteredLegs sc).length := by
      rw [cumcount_length] at hilen
      exact hilen
    have hcg := cumcount_get (DRTScenario.walkFilteredLegs sc) [] i hi
    have hpval : p = ((DRTScenario.walkFilteredLegs sc).get ⟨i, hi⟩,
        DRTScenario.seqNumberAt (DRTScenario.walkFilteredLegs sc) i hi) := by
      rw [← hget]
      rw [show (⟨i, hilen⟩ : Fin (DRTScenario.cumcountNumbers []
          (DRTScenario.walkFilteredLegs sc)).length)
        = ⟨i, by rw [cumcount_length]; exact hi⟩ from rfl]
      rw [hcg]
      simp [DRTScenario.seqNumberAt]
    refine ⟨i, hi, ?_, ?_, ?_⟩
    · rw [← hmk, hpval]
    · rw [← hmk, hpval]
    · rw [← hmk]
      simp only
      rw [legsCountOf_cumcount]
  · rintro ⟨i, hi, hleg, hnum, hcnt⟩
    have hilen : i < (DRTScenario.cumcountNumbers []
        (DRTScenario.walkFilteredLegs sc)).length := by
      rw [cumcount_length]
      exact hi
    refine List.mem_map.mpr ⟨(DRTScenario.cumcountNumbers []
        (DRTScenario.walkFilteredLegs sc)).get ⟨i, hilen⟩, List.get_mem _ _ hilen, ?_⟩
    have hcg := cumcount_get (DRTScenario.walkFilteredLegs sc) [] i hi
    rw [show (⟨i, hilen⟩ : Fin (DRTScenario.cumcountNumbers []
        (DRTScenario.walkFilteredLegs sc)).length)
      = ⟨i, by rw [cumcount_length]; exact hi⟩ from rfl]
    rw [hcg]
    simp only [List.count_nil, Nat.zero_add]
    cases n with
    | mk leg leg_number legs_count =>
      simp only at hleg hnum hcnt
      subst hleg
      congr 1
      · rw [hnum]
        rfl
      · rw [legsCountOf_cumcount, hcnt]

theorem mem_drt_numbers (sc : Scenario) (tid : String) (d : Nat) :
    (tid, d) ∈ DRTScenario.drt_numbers sc
      ↔ ∃ n ∈ DRTScenario.drt_legs_no_walk sc,
          n.leg.mode = sc.settings.drt_mode ∧ n.leg.trip_id = tid ∧ n.leg_number = d := by
  unfold DRTScenario.drt_numbers
  rw [mem_dropDuplicates]
  constructor
  · intro h
    obtain ⟨n, hn, heq⟩ := List.mem_map.mp h
    obtain ⟨hmem, hmode⟩ := List.mem_filter.mp hn
    refine ⟨n, hmem, by simpa using hmode, ?_, ?_⟩
    · exact congrArg Prod.fst heq
    · exact congrArg Prod.snd heq
  · rintro ⟨n, hn, hmode, htid, hnum⟩
    refine List.mem_map.mpr ⟨n, List.mem_filter.mpr ⟨hn, by simpa using hmode⟩, ?_⟩
    rw [htid, hnum]

theorem mem_mergeLeftAnchors (legs : List DRTScenario.NumberedLeg)
    (anchors : List (String × Nat)) (n : DRTScenario.NumberedLeg) (od : Option Nat) :
    (n, od) ∈ DRTScenario.mergeLeftAnchors legs anchors
      ↔ n ∈ legs
        ∧ ((od = none
              ∧ anchors.filter (fun a => decide (a.1 = n.leg.trip_id)) = [])
           ∨ ∃ d, od = some d ∧ (n.leg.trip_id, d) ∈ anchors) := by
  unfold DRTScenario.mergeLeftAnchors
  rw [List.mem_flatMap]
  constructor
  · rintro ⟨m, hm, hin⟩
    by_cases he : anchors.filter (fun a => decide (a.1 = m.leg.trip_id)) = []
    · rw [he] at hin
      simp only [List.isEmpty_nil, if_true, List.mem_singleton, Prod.mk.injEq] at hin
      obtain ⟨rfl, rfl⟩ := hin
      exact ⟨hm, Or.inl ⟨rfl, he⟩⟩
    · rw [if_neg (by simpa [List.isEmpty_iff] using he)] at hin
      obtain ⟨a, ha, heq⟩ := List.mem_map.mp hin
      obtain ⟨hamem, hatrip⟩ := List.mem_filter.mp ha
      obtain ⟨rfl, rfl⟩ := Prod.mk.injEq .. |>.mp heq
      refine ⟨hm, Or.inr ⟨a.2, rfl, ?_⟩⟩
      have ha1 : a.1 = m.leg.trip_id := by simpa using hatrip
      rw [← ha1]
      exact hamem
  · rintro ⟨hn, ⟨rfl, hnil⟩ | ⟨d, rfl, hanch⟩⟩
    · exact ⟨n, hn, by simp [hnil]⟩
    · refine ⟨n, hn, ?_⟩
      have hms : (n.leg.trip_id, d)
          ∈ anchors.filter (fun a => decide (a.1 = n.leg.trip_id)) :=
        List.mem_filter.mpr ⟨hanch, by simp⟩
      rw [if_neg (by simpa [List.isEmpty_iff] using List.ne_nil_of_mem hms)]
      exact List.mem_map.mpr ⟨(n.leg.trip_id, d), hms, rfl⟩

/-- C1: after restricting to legs of DRT trips and removing walk legs, a row
of the adjacency analysis exists exactly for a walk-filtered leg whose
recomputed `leg_number` is its 1-based position within its trip's
walk-filtered subsequence, whose `legs_count` is that trip's walk-filtered
leg count, and for which some DRT-leg anchor position `drt_number` of the
same trip satisfies `drt_number = 1 ∧ legs_count = 1` (sole non-walk leg)
or `|leg_number - drt_number| = 1`; the retained row is classified
"direct" / "before" / "after" by comparing `leg_number` with `drt_number`.
On the fixture trip [walk, pt, drt, pt, walk] the pt legs at walk-filtered
positions 1 and 3 come out "before" and "after", and non-walk legs at
distance 2 or more from the DRT leg are excluded. -/
theorem drt_intermodal_adjacency :
    (∀ (sc : Scenario) (r : DRTScenario.AdjacentLeg),
        r ∈ DRTScenario.drt_adjacent_legs sc
          ↔ ∃ (i : Nat) (hi : i < (DRTScenario.walkFilteredLegs sc).length),
              r.leg = (DRTScenario.walkFilteredLegs sc).get ⟨i, hi⟩
              ∧ r.leg_number = DRTScenario.seqNumberAt (DRTScenario.walkFilteredLegs sc) i hi
              ∧ r.legs_count
                  = DRTScenario.tripTotal (DRTScenario.walkFilteredLegs sc) r.leg.trip_id
              ∧ ∃ d : Nat,
                  r.drt_number = some d
                  ∧ (∃ (j : Nat) (hj : j < (DRTScenario.walkFilteredLegs sc).length),
                      ((DRTScenario.walkFilteredLegs sc).get ⟨j, hj⟩).mode
                          = sc.settings.drt_mode
                      ∧ ((DRTScenario.walkFilteredLegs sc).get ⟨j, hj⟩).trip_id
                          = r.leg.trip_id
                      ∧ d = DRTScenario.seqNumberAt (DRTScenario.walkFilteredLegs sc) j hj)
                  ∧ ((d = 1 ∧ r.legs_count = 1)
                      ∨ ((r.leg_number : Int) - (d : Int)).natAbs = 1)
                  ∧ r.order = (if r.leg_number = d then "direct"
                      else if r.leg_number < d then "before" else "after"))
    ∧ DRTScenario.drt_adjacent_legs scC1 = expectedC1 := by
  refine ⟨?_, by rfl⟩
  intro sc r
  unfold DRTScenario.drt_adjacent_legs
  constructor
  · intro hr
    obtain ⟨p, hpf, hmk⟩ := List.mem_map.mp hr
    obtain ⟨hpm, hkeep⟩ := List.mem_filter.mp hpf
    obtain ⟨hn, hcase⟩ :=
      (mem_mergeLeftAnchors (DRTScenario.drt_legs_no_walk sc)
        (DRTScenario.drt_numbers sc) p.1 p.2).mp hpm
    rcases hcase with ⟨hod, _⟩ | ⟨d, hod, hanch⟩
    · rw [hod] at hkeep
      simp [DRTScenario.adjacencyKeep] at hkeep
    · obtain ⟨i, hi, hleg, hnum, hcnt⟩ := (mem_drt_legs_no_walk sc p.1).mp hn
      obtain ⟨nd, hnd, hndmode, hndtid, hndnum⟩ :=
        (mem_drt_numbers sc p.1.leg.trip_id d).mp hanch
      obtain ⟨j, hj, hjleg, hjnum, _⟩ := (mem_drt_legs_no_walk sc nd).mp hnd
      rw [hod] at hkeep
      have hkeep' : (d = 1 ∧ p.1.legs_count = 1)
          ∨ ((p.1.leg_number : Int) - (d : Int)).natAbs = 1 := by
        simpa [DRTScenario.adjacencyKeep, Bool.or_eq_true, Bool.and_eq_true,
          decide_eq_true_eq] using hkeep
      subst hmk
      refine ⟨i, hi, hleg, hnum, hcnt, d, hod, ⟨j, hj, ?_, ?_, ?_⟩, hkeep', ?_⟩
      · rw [← hjleg]
        exact hndmode
      · rw [← hjleg]
        exact hndtid
      · rw [← hndnum]
        exact hjnum
      · simp [DRTScenario.orderColumn, hod]
  · rintro ⟨i, hi, hleg, hnum, hcnt, d, hod, ⟨j, hj, hjmode, hjtid, hjnum⟩, hcond, horder⟩
    have hn : (⟨r.leg, r.leg_number, r.legs_count⟩ : DRTScenario.NumberedLeg)
        ∈ DRTScenario.drt_legs_no_walk sc :=
      (mem_drt_legs_no_walk sc _).mpr ⟨i, hi, hleg, hnum, hcnt⟩
    have hndmem : (⟨(DRTScenario.walkFilteredLegs sc).get ⟨j, hj⟩,
        DRTScenario.seqNumberAt (DRTScenario.walkFilteredLegs sc) j hj,
        DRTScenario.tripTotal (DRTScenario.walkFilteredLegs sc)
          ((DRTScenario.walkFilteredLegs sc).get ⟨j, hj⟩).trip_id⟩ : DRTScenario.NumberedLeg)
        ∈ DRTScenario.drt_legs_no_walk sc :=
      (mem_drt_legs_no_walk sc _).mpr ⟨j, hj, rfl, rfl, rfl⟩
    have hanch : (r.leg.trip_id, d) ∈ DRTScenario.drt_numbers sc :=
      (mem_drt_numbers sc _ d).mpr ⟨_, hndmem, hjmode, hjtid, hjnum.symm⟩
    have hmerge : ((⟨r.leg, r.leg_number, r.legs_count⟩ : DRTScenario.NumberedLeg), some d)
        ∈ DRTScenario.mergeLeftAnchors (DRTScenario.drt_legs_no_walk sc)
            (DRTScenario.drt_numbers sc) :=
      (mem_mergeLeftAnchors _ _ _ (some d)).mpr ⟨hn, Or.inr ⟨d, rfl, hanch⟩⟩
    have hkeep : DRTScenario.adjacencyKeep r.leg_number r.legs_count (some d) = true := by
      simp only [DRTScenario.adjacencyKeep, Bool.or_eq_true, Bool.and_eq_true,
        decide_eq_true_eq]
      exact hcond
    refine List.mem_map.mpr
      ⟨(⟨r.leg, r.leg_number, r.legs_count⟩, some d), List.mem_filter.mpr ⟨hmerge, hkeep⟩, ?_⟩
    cases r with
    | mk leg leg_number legs_count drt_number order =>
      simp only at hod horder
      simp only [hod, horder]
      rfl

/-- Witness for C1: the characterization instantiated at the fixture and its
first retained row (the "before" pt leg of trip t1). -/
theorem drt_intermodal_adjacency_witness :
    DRTScenario.drt_adjacent_legs scC1 = expectedC1 :=
  drt_intermodal_adjacency.2
